import Mathlib

/-
Verification of the clipboard copy controller in src/static/js/main.js
(repository rt75272/Password_Generator).

The script attaches a click listener to every element of class btn-copy at
DOMContentLoaded.  A click resolves the password text from the nearest
enclosing password-option container (its password-text child), trims it,
and either shows a "No password" label (empty text), or invokes
navigator.clipboard.writeText and shows "Copied!" / "Failed" feedback,
restoring the label after 1500 ms.

The embedding below is shallow: the handler is a pure function from the
clicked button, the resolved password element and the outcome of the
clipboard promise, to the observable effects (the string written, the
immediate label and color, and the label and color the scheduled timeout
callback will write).
-/

namespace CopyButton

/-- Whitespace as recognised by the JavaScript String.prototype.trim:
space, tab, newline, carriage return, vertical tab, form feed, no-break
space, line and paragraph separators, BOM.  (Exotic Unicode space
separators are omitted; none of the results depend on them.) -/
def isJsWhitespace (c : Char) : Bool :=
  c = ' ' || c = '\t' || c = '\n' || c = '\r' ||
  c = '\x0b' || c = '\x0c' || c = '\u00a0' ||
  c = '\u2028' || c = '\u2029' || c = '\ufeff'

/-- JavaScript String.prototype.trim: remove leading and trailing
whitespace. -/
def jsTrim (s : String) : String :=
  ⟨((s.data.dropWhile isJsWhitespace).reverse.dropWhile isJsWhitespace).reverse⟩

/-- The password text element (class password-text inside a
password-option container): its textContent and its data-password
attribute (dataset.password, none when the attribute is absent). -/
structure PasswordEl where
  textContent : String
  datasetPassword : Option String
deriving DecidableEq

/-- A copy-trigger button (class btn-copy): its visible label
(textContent), its inline style.color, and its data-target attribute
(dataset.target, none when the attribute is absent, mirroring the
JavaScript undefined). -/
structure Button where
  textContent : String
  styleColor : String
  datasetTarget : Option String
deriving DecidableEq

/-- Text resolution of the click handler, src/static/js/main.js lines
19 to 32.  The argument passwordEl embeds
passwordOption ? passwordOption.querySelector(".password-text") : null,
so it is none when the button has no enclosing password-option container
or that container has no password-text child.  The body mirrors:

  let text = "";
  if (passwordEl) text = passwordEl.textContent.trim();
  else if (copyBtn.dataset.target !== undefined)
    text = passwordEl ? passwordEl.dataset.password : "";
  if (!text && passwordEl) text = passwordEl.textContent.trim();

An absent dataset.password would yield undefined, which is falsy exactly
like the empty string; it is embedded as the empty string. -/
def resolveText (copyBtn : Button) (passwordEl : Option PasswordEl) : String :=
  let text : String := ""
  let text : String :=
    match passwordEl with
    | some el => jsTrim el.textContent
    | none =>
      if copyBtn.datasetTarget.isSome then
        match passwordEl with
        | some el => el.datasetPassword.getD ""
        | none => ""
      else text
  let text : String :=
    if text = "" then
      match passwordEl with
      | some el => jsTrim el.textContent
      | none => text
    else text
  text

/-- Outcome of the platform promise returned by
navigator.clipboard.writeText: it either resolves or rejects. -/
inductive WriteOutcome
  | success
  | failure
deriving DecidableEq

/-- Observable effect of one click, src/static/js/main.js lines 17 to 57:
wrote is the string passed to writeText (none when writeText is never
invoked); labelAfter and colorAfter are the label and inline color of the
button immediately after the handler settles; restoreLabel and
restoreColor are the label and color the scheduled setTimeout callback
will write after delayMs milliseconds. -/
structure ClickResult where
  wrote : Option String
  labelAfter : String
  colorAfter : String
  restoreLabel : String
  restoreColor : String
  delayMs : Nat
deriving DecidableEq

/-- The click handler, src/static/js/main.js lines 17 to 57, as a pure
function.  The empty-text branch sets the label to "No password" and
schedules the literal "Copy" after 1500 ms, without invoking writeText.
Otherwise writeText is invoked with the resolved text; on resolution the
label becomes "Copied!" with color #4ade80, and originalText (read before
the label changes) together with the empty color string are scheduled; on
rejection the catch block sets "Failed" and schedules the literal "Copy".
The catch block absorbs the rejection: the function is total and no
outcome escapes the handler. -/
def clickHandler (copyBtn : Button) (passwordEl : Option PasswordEl)
    (outcome : WriteOutcome) : ClickResult :=
  let text := resolveText copyBtn passwordEl
  if text = "" then
    { wrote := none
      labelAfter := "No password"
      colorAfter := copyBtn.styleColor
      restoreLabel := "Copy"
      restoreColor := copyBtn.styleColor
      delayMs := 1500 }
  else
    match outcome with
    | .success =>
      let originalText := copyBtn.textContent
      { wrote := some text
        labelAfter := "Copied!"
        colorAfter := "#4ade80"
        restoreLabel := originalText
        restoreColor := ""
        delayMs := 1500 }
    | .failure =>
      { wrote := some text
        labelAfter := "Failed"
        colorAfter := copyBtn.styleColor
        restoreLabel := "Copy"
        restoreColor := copyBtn.styleColor
        delayMs := 1500 }

/-- A DOM element at setup time, identified by nodeId, with its class
list. -/
structure DomNode where
  nodeId : Nat
  classList : List String
deriving DecidableEq

/-- document.querySelectorAll(".btn-copy") over a flat model of the
document: the elements whose class list contains btn-copy, in document
order. -/
def selectBtnCopy (doc : List DomNode) : List DomNode :=
  doc.filter (fun n => n.classList.contains "btn-copy")

/-- The DOMContentLoaded handler, src/static/js/main.js lines 12 to 17:
forEach attaches one click listener to each element of the NodeList.  The
result lists the elements that received a listener, one entry per
attached listener. -/
def setupHandlers (doc : List DomNode) : List DomNode :=
  selectBtnCopy doc

/-- The two phases of the feedback cycle of one click: the state written
immediately by the handler, and the state written by the scheduled
setTimeout callback 1500 ms later. -/
inductive Phase
  | immediate
  | restore
deriving DecidableEq

/-- Label and color a phase of the feedback cycle writes onto a button. -/
def applyPhase (b : Button) (r : ClickResult) : Phase → Button
  | .immediate => { b with textContent := r.labelAfter, styleColor := r.colorAfter }
  | .restore => { b with textContent := r.restoreLabel, styleColor := r.restoreColor }

/-- One phase of a click on button i of a document holding several copy
buttons: the handler reads only the clicked button and writes only the
clicked button (src/static/js/main.js lines 17 to 57 reference copyBtn
and its own password option exclusively). -/
def docClick (doc : List Button) (i : Nat) (passwordEl : Option PasswordEl)
    (outcome : WriteOutcome) (ph : Phase) : List Button :=
  match doc[i]? with
  | some b => doc.set i (applyPhase b (clickHandler b passwordEl outcome) ph)
  | none => doc

end CopyButton

namespace CopyButton

/-- Sample button used to instantiate the theorems below. -/
def sampleBtn : Button :=
  { textContent := "Copy", styleColor := "", datasetTarget := none }

/-- Sample password element whose text carries surrounding whitespace. -/
def samplePw : PasswordEl :=
  { textContent := "  S3cr3t!  ", datasetPassword := none }

/-- Sample password element whose text is whitespace-only. -/
def blankPw : PasswordEl :=
  { textContent := "   ", datasetPassword := none }

theorem head?_dropWhile_false {α : Type} (p : α → Bool) (l : List α) (a : α)
    (h : (l.dropWhile p).head? = some a) : p a = false := by
  have hm := List.head?_dropWhile_not p l
  rw [h] at hm
  exact hm

theorem reverse_dropWhile_reverse_prefix {α : Type} (p : α → Bool) (l : List α) :
    (l.reverse.dropWhile p).reverse <+: l := by
  have h : l.reverse.dropWhile p <:+ l.reverse := List.dropWhile_suffix p
  have h2 := List.reverse_prefix.mpr h
  simpa using h2

theorem jsTrim_head (s : String) (c : Char)
    (h : (jsTrim s).data.head? = some c) : isJsWhitespace c = false := by
  have hpre : (jsTrim s).data <+: s.data.dropWhile isJsWhitespace :=
    reverse_dropWhile_reverse_prefix isJsWhitespace (s.data.dropWhile isJsWhitespace)
  obtain ⟨t, ht⟩ := hpre
  cases hdata : (jsTrim s).data with
  | nil => rw [hdata] at h; exact absurd h (by simp)
  | cons a as =>
    rw [hdata] at h ht
    have hc : c = a := by simpa using h.symm
    subst hc
    have hh : (s.data.dropWhile isJsWhitespace).head? = some c := by
      rw [← ht]; rfl
    exact head?_dropWhile_false _ _ _ hh

theorem jsTrim_getLast (s : String) (c : Char)
    (h : (jsTrim s).data.getLast? = some c) : isJsWhitespace c = false := by
  have hh : ((s.data.dropWhile isJsWhitespace).reverse.dropWhile isJsWhitespace).head? = some c := by
    have hrev := List.getLast?_reverse
      ((s.data.dropWhile isJsWhitespace).reverse.dropWhile isJsWhitespace)
    rw [← hrev]
    exact h
  exact head?_dropWhile_false _ _ _ hh

theorem resolveText_some (copyBtn : Button) (el : PasswordEl) :
    resolveText copyBtn (some el) = jsTrim el.textContent := by
  unfold resolveText
  by_cases h : jsTrim el.textContent = "" <;> simp [h]

theorem resolveText_none (copyBtn : Button) :
    resolveText copyBtn none = "" := by
  unfold resolveText
  simp

theorem clickHandler_empty (copyBtn : Button) (passwordEl : Option PasswordEl)
    (outcome : WriteOutcome) (h : resolveText copyBtn passwordEl = "") :
    clickHandler copyBtn passwordEl outcome =
      { wrote := none
        labelAfter := "No password"
        colorAfter := copyBtn.styleColor
        restoreLabel := "Copy"
        restoreColor := copyBtn.styleColor
        delayMs := 1500 } := by
  unfold clickHandler
  simp [h]

theorem clickHandler_success (copyBtn : Button) (passwordEl : Option PasswordEl)
    (h : resolveText copyBtn passwordEl ≠ "") :
    clickHandler copyBtn passwordEl WriteOutcome.success =
      { wrote := some (resolveText copyBtn passwordEl)
        labelAfter := "Copied!"
        colorAfter := "#4ade80"
        restoreLabel := copyBtn.textContent
        restoreColor := ""
        delayMs := 1500 } := by
  unfold clickHandler
  simp [h]

theorem clickHandler_failure (copyBtn : Button) (passwordEl : Option PasswordEl)
    (h : resolveText copyBtn passwordEl ≠ "") :
    clickHandler copyBtn passwordEl WriteOutcome.failure =
      { wrote := some (resolveText copyBtn passwordEl)
        labelAfter := "Failed"
        colorAfter := copyBtn.styleColor
        restoreLabel := "Copy"
        restoreColor := copyBtn.styleColor
        delayMs := 1500 } := by
  unfold clickHandler
  simp [h]

theorem clickHandler_wrote_nonempty (copyBtn : Button) (passwordEl : Option PasswordEl)
    (outcome : WriteOutcome) (h : resolveText copyBtn passwordEl ≠ "") :
    (clickHandler copyBtn passwordEl outcome).wrote =
      some (resolveText copyBtn passwordEl) := by
  cases outcome with
  | success => rw [clickHandler_success copyBtn passwordEl h]
  | failure => rw [clickHandler_failure copyBtn passwordEl h]

end CopyButton

namespace CopyButton

/-- Claim C1 fails on the code: for a trigger that carries the data-target
attribute but has no enclosing password-option container, the fallback
branch evaluates passwordEl ? passwordEl.dataset.password : "" with
passwordEl null, so the data attribute value is never read: the text
resolves to the empty string, the click shows "No password" and writeText
is never invoked, contrary to the documented data-attribute fallback. -/
theorem C1_dataAttribute_fallback_dead :
    resolveText { textContent := "Copy", styleColor := "", datasetTarget := some "pw1" } none = "" ∧
    (clickHandler { textContent := "Copy", styleColor := "", datasetTarget := some "pw1" }
      none WriteOutcome.success).wrote = none ∧
    (clickHandler { textContent := "Copy", styleColor := "", datasetTarget := some "pw1" }
      none WriteOutcome.success).labelAfter = "No password" := by
  refine ⟨by decide, by decide, by decide⟩

/-- Claim C2: for every click whose resolved text is empty or
whitespace-only, the clipboard write is never invoked and the button label
is set to the no-password indicator "No password". -/
theorem C2_empty_resolution_no_write (copyBtn : Button) (passwordEl : Option PasswordEl)
    (outcome : WriteOutcome)
    (h : ∀ c ∈ (resolveText copyBtn passwordEl).data, isJsWhitespace c = true) :
    (clickHandler copyBtn passwordEl outcome).wrote = none ∧
    (clickHandler copyBtn passwordEl outcome).labelAfter = "No password" := by
  have hempty : resolveText copyBtn passwordEl = "" := by
    cases passwordEl with
    | none => exact resolveText_none copyBtn
    | some el =>
      rw [resolveText_some] at h ⊢
      cases hdata : (jsTrim el.textContent).data with
      | nil => exact String.ext (by rw [hdata])
      | cons a as =>
        have hws : isJsWhitespace a = false :=
          jsTrim_head el.textContent a (by rw [hdata]; rfl)
        have ha : isJsWhitespace a = true := h a (by rw [hdata]; exact List.mem_cons_self a as)
        rw [hws] at ha
        exact absurd ha (by simp)
  rw [clickHandler_empty copyBtn passwordEl outcome hempty]
  exact ⟨rfl, rfl⟩

theorem C2_empty_resolution_no_write_witness :
    (∀ c ∈ (resolveText sampleBtn (some blankPw)).data, isJsWhitespace c = true) ∧
    (clickHandler sampleBtn (some blankPw) WriteOutcome.success).wrote = none ∧
    (clickHandler sampleBtn (some blankPw) WriteOutcome.success).labelAfter = "No password" :=
  ⟨by decide,
   C2_empty_resolution_no_write sampleBtn (some blankPw) WriteOutcome.success (by decide)⟩

/-- Claim C3 fails on the code: with original label "Copy passphrase" and a
whitespace-only source, the empty-text branch schedules the literal
"Copy", not the original pre-click label. -/
theorem C3_restore_literal_counterexample :
    ({ textContent := "Copy passphrase", styleColor := "", datasetTarget := none } : Button).textContent
      = "Copy passphrase" ∧
    (clickHandler { textContent := "Copy passphrase", styleColor := "", datasetTarget := none }
      (some { textContent := "   ", datasetPassword := none }) WriteOutcome.success).restoreLabel
      = "Copy" ∧
    ("Copy" : String) ≠ "Copy passphrase" := by
  refine ⟨rfl, by decide, by decide⟩

/-- Claim C3 amended: when resolution yields the empty string, the label is
set to "No password" and after the 1500 ms delay the label is set to the
literal "Copy", which coincides with the original label exactly when the
original label was "Copy". -/
theorem C3_empty_restores_literal_copy (copyBtn : Button) (passwordEl : Option PasswordEl)
    (outcome : WriteOutcome) (h : resolveText copyBtn passwordEl = "") :
    (clickHandler copyBtn passwordEl outcome).labelAfter = "No password" ∧
    (clickHandler copyBtn passwordEl outcome).restoreLabel = "Copy" ∧
    (clickHandler copyBtn passwordEl outcome).delayMs = 1500 := by
  rw [clickHandler_empty copyBtn passwordEl outcome h]
  exact ⟨rfl, rfl, rfl⟩

theorem C3_empty_restores_literal_copy_witness :
    (clickHandler sampleBtn (some blankPw) WriteOutcome.success).labelAfter = "No password" ∧
    (clickHandler sampleBtn (some blankPw) WriteOutcome.success).restoreLabel = "Copy" ∧
    (clickHandler sampleBtn (some blankPw) WriteOutcome.success).delayMs = 1500 :=
  C3_empty_restores_literal_copy sampleBtn (some blankPw) WriteOutcome.success (by decide)

/-- Claim C4: a click whose container text element reads "  S3cr3t!  "
resolves to the trimmed "S3cr3t!" and hands exactly that value to the
clipboard write; in general the resolved text of a container click is the
trimmed textContent. -/
theorem C4_trimmed_resolution (copyBtn : Button) (outcome : WriteOutcome) :
    (∀ el : PasswordEl, resolveText copyBtn (some el) = jsTrim el.textContent) ∧
    resolveText copyBtn (some samplePw) = "S3cr3t!" ∧
    (clickHandler copyBtn (some samplePw) outcome).wrote = some "S3cr3t!" := by
  have hres : resolveText copyBtn (some samplePw) = "S3cr3t!" := by
    rw [resolveText_some]
    decide
  refine ⟨fun el => resolveText_some copyBtn el, hres, ?_⟩
  rw [clickHandler_wrote_nonempty copyBtn (some samplePw) outcome (by rw [hres]; decide), hres]

end CopyButton

namespace CopyButton

/-- Claim C5 fails on the code: a button whose original inline color is
"red" does not get that color back: the restore scheduled by the success
branch sets the color to the empty string. -/
theorem C5_style_restore_counterexample :
    ({ textContent := "Copy", styleColor := "red", datasetTarget := none } : Button).styleColor
      = "red" ∧
    (clickHandler { textContent := "Copy", styleColor := "red", datasetTarget := none }
      (some { textContent := "S3cr3t!", datasetPassword := none })
      WriteOutcome.success).restoreColor = "" ∧
    ("" : String) ≠ "red" := by
  refine ⟨rfl, by decide, by decide⟩

/-- Claim C5 amended: on a successful write the label is "Copied!" with the
success color #4ade80 immediately after the write resolves; after the
1500 ms delay the original label is restored while the inline color is set
to the empty string, which equals the original style exactly when the
original inline color was empty. -/
theorem C5_success_feedback (copyBtn : Button) (passwordEl : Option PasswordEl)
    (h : resolveText copyBtn passwordEl ≠ "") :
    (clickHandler copyBtn passwordEl WriteOutcome.success).labelAfter = "Copied!" ∧
    (clickHandler copyBtn passwordEl WriteOutcome.success).colorAfter = "#4ade80" ∧
    (clickHandler copyBtn passwordEl WriteOutcome.success).restoreLabel = copyBtn.textContent ∧
    (clickHandler copyBtn passwordEl WriteOutcome.success).restoreColor = "" ∧
    (clickHandler copyBtn passwordEl WriteOutcome.success).delayMs = 1500 := by
  rw [clickHandler_success copyBtn passwordEl h]
  exact ⟨rfl, rfl, rfl, rfl, rfl⟩

theorem C5_success_feedback_witness :
    (clickHandler sampleBtn (some samplePw) WriteOutcome.success).labelAfter = "Copied!" ∧
    (clickHandler sampleBtn (some samplePw) WriteOutcome.success).colorAfter = "#4ade80" ∧
    (clickHandler sampleBtn (some samplePw) WriteOutcome.success).restoreLabel = sampleBtn.textContent ∧
    (clickHandler sampleBtn (some samplePw) WriteOutcome.success).restoreColor = "" ∧
    (clickHandler sampleBtn (some samplePw) WriteOutcome.success).delayMs = 1500 :=
  C5_success_feedback sampleBtn (some samplePw) (by decide)

/-- Claim C6: a rejected clipboard write is absorbed by the catch block:
the handler is a total function of the outcome, so the rejection never
escapes; immediately after rejection the label is "Failed", and after the
1500 ms delay the label is the literal "Copy". -/
theorem C6_failure_feedback (copyBtn : Button) (passwordEl : Option PasswordEl)
    (h : resolveText copyBtn passwordEl ≠ "") :
    (clickHandler copyBtn passwordEl WriteOutcome.failure).labelAfter = "Failed" ∧
    (clickHandler copyBtn passwordEl WriteOutcome.failure).restoreLabel = "Copy" ∧
    (clickHandler copyBtn passwordEl WriteOutcome.failure).delayMs = 1500 := by
  rw [clickHandler_failure copyBtn passwordEl h]
  exact ⟨rfl, rfl, rfl⟩

theorem C6_failure_feedback_witness :
    (clickHandler sampleBtn (some samplePw) WriteOutcome.failure).labelAfter = "Failed" ∧
    (clickHandler sampleBtn (some samplePw) WriteOutcome.failure).restoreLabel = "Copy" ∧
    (clickHandler sampleBtn (some samplePw) WriteOutcome.failure).delayMs = 1500 :=
  C6_failure_feedback sampleBtn (some samplePw) (by decide)

end CopyButton

namespace CopyButton

/-- Sample document at setup time: one copy trigger and one unrelated
element. -/
def copyNode : DomNode := { nodeId := 0, classList := ["btn-copy"] }

/-- Sample non-trigger element of the setup document. -/
def otherNode : DomNode := { nodeId := 1, classList := ["generate"] }

/-- Sample setup document. -/
def sampleDoc : List DomNode := [copyNode, otherNode]

/-- Claim C7: at DOMContentLoaded, every element of the document carrying
the class btn-copy receives exactly one click listener and every other
element receives none; when no btn-copy element exists, setup attaches
nothing at all (setupHandlers is total, so the no-op raises no error). -/
theorem C7_setup_attaches_once (doc : List DomNode) (hnd : doc.Nodup)
    (n : DomNode) (hn : n ∈ doc) :
    ((setupHandlers doc).count n = if n.classList.contains "btn-copy" then 1 else 0) ∧
    ((∀ m ∈ doc, m.classList.contains "btn-copy" = false) → setupHandlers doc = []) := by
  constructor
  · unfold setupHandlers selectBtnCopy
    by_cases h : n.classList.contains "btn-copy"
    · rw [if_pos h, List.count_filter (by simpa using h)]
      exact List.count_eq_one_of_mem hnd hn
    · rw [if_neg h]
      refine List.count_eq_zero.mpr ?_
      intro hmem
      exact h (List.mem_filter.mp hmem).2
  · intro hall
    unfold setupHandlers selectBtnCopy
    refine List.filter_eq_nil_iff.mpr ?_
    intro m hm
    simpa using hall m hm

theorem C7_setup_attaches_once_witness :
    ((setupHandlers sampleDoc).count copyNode =
      if copyNode.classList.contains "btn-copy" then 1 else 0) ∧
    ((∀ m ∈ sampleDoc, m.classList.contains "btn-copy" = false) → setupHandlers sampleDoc = []) :=
  C7_setup_attaches_once sampleDoc (by decide) copyNode (by decide)

/-- Claim C8: a click on button i of a multi-button document reads and
writes only button i: through either phase of the feedback cycle every
other index j keeps exactly its previous entry, and the entry at i is a
function of the previous entry at i alone. -/
theorem C8_click_frame (doc : List Button) (i j : Nat) (passwordEl : Option PasswordEl)
    (outcome : WriteOutcome) (ph : Phase) (hij : i ≠ j) :
    (docClick doc i passwordEl outcome ph)[j]? = doc[j]? ∧
    (docClick doc i passwordEl outcome ph)[i]? =
      (doc[i]?).map (fun b => applyPhase b (clickHandler b passwordEl outcome) ph) := by
  unfold docClick
  cases h : doc[i]? with
  | none => simp [h]
  | some b =>
    obtain ⟨hlen, _⟩ := List.getElem?_eq_some_iff.mp h
    constructor
    · exact List.getElem?_set_ne hij
    · rw [List.getElem?_set_self hlen]
      rfl

theorem C8_click_frame_witness :
    (docClick [sampleBtn, sampleBtn] 0 (some samplePw) WriteOutcome.success Phase.immediate)[1]?
      = [sampleBtn, sampleBtn][1]? ∧
    (docClick [sampleBtn, sampleBtn] 0 (some samplePw) WriteOutcome.success Phase.immediate)[0]?
      = ([sampleBtn, sampleBtn][0]?).map
          (fun b => applyPhase b (clickHandler b (some samplePw) WriteOutcome.success) Phase.immediate) :=
  C8_click_frame [sampleBtn, sampleBtn] 0 1 (some samplePw) WriteOutcome.success Phase.immediate
    (by decide)

/-- Claim C9: every string actually handed to writeText is nonempty and
carries neither leading nor trailing whitespace: on every reachable path
it is the trimmed textContent of the container text element, checked
nonempty before the write. -/
theorem C9_written_string_trimmed (copyBtn : Button) (passwordEl : Option PasswordEl)
    (outcome : WriteOutcome) (s : String)
    (h : (clickHandler copyBtn passwordEl outcome).wrote = some s) :
    s ≠ "" ∧
    (∃ el, passwordEl = some el ∧ s = jsTrim el.textContent) ∧
    (∀ c, s.data.head? = some c → isJsWhitespace c = false) ∧
    (∀ c, s.data.getLast? = some c → isJsWhitespace c = false) := by
  by_cases hr : resolveText copyBtn passwordEl = ""
  · rw [clickHandler_empty copyBtn passwordEl outcome hr] at h
    exact absurd h (by simp)
  · have hs : s = resolveText copyBtn passwordEl := by
      rw [clickHandler_wrote_nonempty copyBtn passwordEl outcome hr] at h
      exact (Option.some.inj h).symm
    cases passwordEl with
    | none => exact absurd (resolveText_none copyBtn) hr
    | some el =>
      have hjs : s = jsTrim el.textContent := by
        rw [hs, resolveText_some]
      refine ⟨by rw [hs]; exact hr, ⟨el, rfl, hjs⟩, ?_, ?_⟩
      · intro c hc
        rw [hjs] at hc
        exact jsTrim_head el.textContent c hc
      · intro c hc
        rw [hjs] at hc
        exact jsTrim_getLast el.textContent c hc

theorem C9_written_string_trimmed_witness :
    ("S3cr3t!" : String) ≠ "" ∧
    (∃ el, (some samplePw : Option PasswordEl) = some el ∧ "S3cr3t!" = jsTrim el.textContent) ∧
    (∀ c, ("S3cr3t!" : String).data.head? = some c → isJsWhitespace c = false) ∧
    (∀ c, ("S3cr3t!" : String).data.getLast? = some c → isJsWhitespace c = false) :=
  C9_written_string_trimmed sampleBtn (some samplePw) WriteOutcome.success "S3cr3t!" (by decide)

/-- Claim C10: only the success branch touches the inline color: whenever
the immediate or the scheduled color differs from the button color, the
click was a successful write of nonempty text, the immediate color is the
success color #4ade80 and the scheduled color is the empty string; the
empty-text and failure branches leave the color untouched. -/
theorem C10_color_only_success (copyBtn : Button) (passwordEl : Option PasswordEl)
    (outcome : WriteOutcome)
    (h : (clickHandler copyBtn passwordEl outcome).colorAfter ≠ copyBtn.styleColor ∨
         (clickHandler copyBtn passwordEl outcome).restoreColor ≠ copyBtn.styleColor) :
    outcome = WriteOutcome.success ∧ resolveText copyBtn passwordEl ≠ "" ∧
    (clickHandler copyBtn passwordEl outcome).colorAfter = "#4ade80" ∧
    (clickHandler copyBtn passwordEl outcome).restoreColor = "" := by
  by_cases hr : resolveText copyBtn passwordEl = ""
  · rw [clickHandler_empty copyBtn passwordEl outcome hr] at h
    simp at h
  · cases outcome with
    | failure =>
      rw [clickHandler_failure copyBtn passwordEl hr] at h
      simp at h
    | success =>
      rw [clickHandler_success copyBtn passwordEl hr]
      exact ⟨rfl, hr, rfl, rfl⟩

theorem C10_color_only_success_witness :
    WriteOutcome.success = WriteOutcome.success ∧
    resolveText sampleBtn (some samplePw) ≠ "" ∧
    (clickHandler sampleBtn (some samplePw) WriteOutcome.success).colorAfter = "#4ade80" ∧
    (clickHandler sampleBtn (some samplePw) WriteOutcome.success).restoreColor = "" :=
  C10_color_only_success sampleBtn (some samplePw) WriteOutcome.success (by decide)

end CopyButton
